import Mathlib

/-!
Shallow embedding of the conversation-persistence engine
(`src/persistence/models.py`, `json_storage.py`, `db_storage.py`,
`manager.py`, `database.py`) and proofs of the spec claims about it.

Timestamps are modelled as integers (an abstract instant, e.g. seconds
since the epoch), matching the code's use of `datetime` values only for
ordering comparisons, subtraction of a day count, and an injective
ISO-8601 rendering.  String-keyed metadata maps are modelled as
association lists.  Fallible operations return `Except StorageError`.
-/

/-- Abstract instant in time (the code uses `datetime.utcnow()`). -/
abbrev Time := Int

/-- Seconds in one day, used by `timedelta(days=...)`. -/
def secondsPerDay : Int := 86400

/-- `MessageRole` enum from `models.py`. -/
inductive MessageRole where
  | user
  | assistant
  | system
deriving DecidableEq, Repr

/-- String value of a role, as serialized by pydantic (`use_enum_values`
rendering of the `str` enum). -/
def MessageRole.toValue : MessageRole → String
  | .user => "user"
  | .assistant => "assistant"
  | .system => "system"

/-- Python `str.strip()`: drop leading and trailing whitespace, modelled
directly on the underlying character list so it evaluates on concrete
strings. -/
def pyStrip (s : String) : String :=
  ⟨((s.data.dropWhile Char.isWhitespace).reverse.dropWhile
      Char.isWhitespace).reverse⟩

/-- `MessageRole(str)` construction: parse a role string, failing on any
other value (pydantic validation on load). -/
def parseRole (s : String) : Option MessageRole :=
  if s = "user" then some .user
  else if s = "assistant" then some .assistant
  else if s = "system" then some .system
  else none

/-- `ConversationMessage` from `models.py`. -/
structure ConversationMessage where
  id : String
  role : MessageRole
  content : String
  timestamp : Time
  metadata : List (String × String)
deriving DecidableEq, Repr

/-- `ConversationSummary` from `models.py`. -/
structure ConversationSummary where
  summary : String
  key_topics : List String
  created_at : Time
  message_count : Nat
deriving DecidableEq, Repr

/-- `UserConversation` from `models.py`. -/
structure UserConversation where
  user_id : String
  conversation_id : String
  messages : List ConversationMessage
  summaries : List ConversationSummary
  created_at : Time
  updated_at : Time
  is_active : Bool
  context_window_size : Int
deriving DecidableEq, Repr

/-- `max(self.summaries, key=lambda s: s.created_at)` on a non-empty list:
Python's `max` keeps the first element among ties, replacing the current
best only on a strictly larger key. -/
def latestSummary (s0 : ConversationSummary) (rest : List ConversationSummary) :
    ConversationSummary :=
  rest.foldl (fun best x => if best.created_at < x.created_at then x else best) s0

/-- The latest summary of a conversation, `none` when there are no
summaries (guard `if ... and self.summaries` in `get_recent_context`). -/
def latestSummaryOpt (c : UserConversation) : Option ConversationSummary :=
  match c.summaries with
  | [] => none
  | s0 :: rest => some (latestSummary s0 rest)

/-- Pydantic `ConversationMessage(...)` construction: the field
constraints and validators of `models.py` run in declaration order —
non-empty id, content length bounds on the raw value, strip then
non-blank check (the stored content is the stripped value), timestamp
not in the future; `none` models the raised `ValidationError`.
`metadata` defaults to the empty map. -/
def mkValidatedMessage (now : Time) (id : String) (role : MessageRole)
    (content : String) (timestamp : Time) : Option ConversationMessage :=
  if id.length < 1 then none
  else if content.length < 1 then none
  else if 50000 < content.length then none
  else if pyStrip content = "" then none
  else if now < timestamp then none
  else some ⟨id, role, pyStrip content, timestamp, []⟩

/-- The synthetic system message built from the latest summary in
`UserConversation.get_recent_context`: a full pydantic construction, so
the stored content is the *stripped* prefixed summary text and an
out-of-range field (e.g. a summary `created_at` in the future, possible
for a loaded document) raises. -/
def mkSummaryMessage (now : Time) (s : ConversationSummary) :
    Option ConversationMessage :=
  mkValidatedMessage now ("summary_" ++ toString s.created_at) .system
    ("Previous conversation summary: " ++ s.summary) s.created_at

/-- Python list slice `xs[s:]` for an arbitrary integer start `s`:
a negative start counts from the end (clamped at 0), a non-negative
start drops that many elements (clamped at the length). -/
def pySliceFrom (s : Int) (xs : List α) : List α :=
  if s < 0 then xs.drop (Int.toNat ((xs.length : Int) + s))
  else xs.drop s.toNat

/-- `UserConversation.get_recent_context` from `models.py`: optional
synthetic summary message followed by
`self.messages[-self.context_window_size:]`; `none` when building the
summary message raises a `ValidationError`. -/
def getRecentContext (now : Time) (c : UserConversation)
    (include_summary : Bool) : Option (List ConversationMessage) :=
  let recentMessages :=
    if c.messages.isEmpty then []
    else pySliceFrom (-(c.context_window_size)) c.messages
  match include_summary, latestSummaryOpt c with
  | true, some latest =>
    match mkSummaryMessage now latest with
    | none => none
    | some m => some ([m] ++ recentMessages)
  | _, _ => some ([] ++ recentMessages)

/-- `get_context_messages` of either backend: look up the conversation,
empty list when absent, else `get_recent_context`. -/
def getContextMessages (now : Time) (conv : Option UserConversation)
    (include_summary : Bool) : Option (List ConversationMessage) :=
  match conv with
  | none => some []
  | some c => getRecentContext now c include_summary

/-- `UserConversation.should_summarize` from `models.py`. -/
def shouldSummarize (c : UserConversation) (maxMessages : Nat) : Bool :=
  if c.messages.length < maxMessages then false
  else
    match c.summaries with
    | [] => true
    | s0 :: rest =>
      let latest := latestSummary s0 rest
      let messagesSinceSummary :=
        (c.messages.filter (fun m => decide (latest.created_at < m.timestamp))).length
      decide (maxMessages / 2 ≤ messagesSinceSummary)

/-- `ConversationManager.should_summarize_conversation` applied to the
looked-up conversation: `false` when the user has no active conversation. -/
def shouldSummarizeConversation (conv : Option UserConversation) (threshold : Nat) :
    Bool :=
  match conv with
  | none => false
  | some c => shouldSummarize c threshold

/-- The messages of `c` whose timestamp is strictly after `t`
(`msg.timestamp > latest_summary.created_at`). -/
def messagesAfter (c : UserConversation) (t : Time) : List ConversationMessage :=
  c.messages.filter (fun m => decide (t < m.timestamp))

/-- Failures a storage backend can raise (Python exceptions): generic
I/O or backend failure, an integrity-constraint violation from the
database engine, and the `ValueError` raised by `create_summary` for a
missing conversation. -/
inductive StorageError where
  | failure (msg : String)
  | integrityError (msg : String)
  | notFound (msg : String)
deriving DecidableEq, Repr

/-- `str(e)` of a storage error. -/
def StorageError.message : StorageError → String
  | .failure m => m
  | .integrityError m => m
  | .notFound m => m

/-- `ConversationStats` from `models.py` (the float average is modelled as
an exact rational). -/
structure ConversationStats where
  user_id : String
  total_conversations : Nat
  total_messages : Nat
  active_conversations : Nat
  last_activity : Option Time
  avg_messages_per_conversation : Rat
deriving DecidableEq, Repr

/-- The health dictionary returned by `ConversationManager.health_check`,
reduced to its `enabled`/`healthy` flags plus a detail string. -/
structure HealthStatus where
  enabled : Bool
  healthy : Bool
  detail : String
deriving DecidableEq, Repr

/-- The disabled-persistence health result from `manager.py`. -/
def disabledHealth : HealthStatus := ⟨false, true, "Persistence disabled"⟩

/-- `ConversationManager.add_user_message`: `False` when disabled, else the
backend call's outcome with every exception caught and turned into `False`. -/
def managerAddUserMessage (enabled : Bool)
    (addResult : Except StorageError ConversationMessage) :
    Except StorageError Bool :=
  if enabled then
    match addResult with
    | .ok _ => .ok true
    | .error _ => .ok false
  else .ok false

/-- `ConversationManager.add_assistant_message`: same containment as
`add_user_message`, with the assistant role fixed at the call site. -/
def managerAddAssistantMessage (enabled : Bool)
    (addResult : Except StorageError ConversationMessage) :
    Except StorageError Bool :=
  if enabled then
    match addResult with
    | .ok _ => .ok true
    | .error _ => .ok false
  else .ok false

/-- `ConversationManager.get_conversation_context`: empty list when
disabled or on any backend exception. -/
def managerGetConversationContext (enabled : Bool)
    (ctxResult : Except StorageError (List ConversationMessage)) :
    Except StorageError (List ConversationMessage) :=
  if enabled then
    match ctxResult with
    | .ok msgs => .ok msgs
    | .error _ => .ok []
  else .ok []

/-- `ConversationManager.should_summarize_conversation`: `False` when
disabled, when the lookup fails, or when the user has no conversation. -/
def managerShouldSummarizeConversation (enabled : Bool) (threshold : Nat)
    (getResult : Except StorageError (Option UserConversation)) :
    Except StorageError Bool :=
  if enabled then
    match getResult with
    | .ok conv => .ok (shouldSummarizeConversation conv threshold)
    | .error _ => .ok false
  else .ok false

/-- `ConversationManager.create_conversation_summary`: looks up the active
conversation, then calls the backend's `create_summary`; any exception in
either call yields `False`. -/
def managerCreateConversationSummary (enabled : Bool)
    (getResult : Except StorageError (Option UserConversation))
    (createResult : UserConversation → Except StorageError ConversationSummary) :
    Except StorageError Bool :=
  if enabled then
    match getResult with
    | .ok (some c) =>
      match createResult c with
      | .ok _ => .ok true
      | .error _ => .ok false
    | .ok none => .ok false
    | .error _ => .ok false
  else .ok false

/-- `ConversationManager.clear_conversation_history`: archives the active
conversation; the archive call's boolean is discarded and exceptions in
either call yield `False`. -/
def managerClearConversationHistory (enabled : Bool)
    (getResult : Except StorageError (Option UserConversation))
    (archiveResult : UserConversation → Except StorageError Bool) :
    Except StorageError Bool :=
  if enabled then
    match getResult with
    | .ok (some c) =>
      match archiveResult c with
      | .ok _ => .ok true
      | .error _ => .ok false
    | .ok none => .ok false
    | .error _ => .ok false
  else .ok false

/-- `ConversationManager.get_user_stats`: `None` when disabled or on any
backend exception. -/
def managerGetUserStats (enabled : Bool)
    (statsResult : Except StorageError ConversationStats) :
    Except StorageError (Option ConversationStats) :=
  if enabled then
    match statsResult with
    | .ok s => .ok (some s)
    | .error _ => .ok none
  else .ok none

/-- `ConversationManager.cleanup_old_conversations`: `0` when disabled or
on any backend exception. -/
def managerCleanupOldConversations (enabled : Bool)
    (cleanupResult : Except StorageError Nat) :
    Except StorageError Nat :=
  if enabled then
    match cleanupResult with
    | .ok n => .ok n
    | .error _ => .ok 0
  else .ok 0

/-- `ConversationManager.health_check`: the disabled sentinel when
disabled, the backend result tagged `enabled=True` otherwise, and a
healthy=False report (not an exception) on backend failure. -/
def managerHealthCheck (enabled : Bool)
    (healthResult : Except StorageError HealthStatus) :
    Except StorageError HealthStatus :=
  if enabled then
    match healthResult with
    | .ok h => .ok { h with enabled := true }
    | .error e => .ok ⟨true, false, e.message⟩
  else .ok disabledHealth

/-- `ConversationManager.initialize`: delegates to the backend with no
`try/except` — a backend exception propagates to the caller. -/
def managerInitialize (enabled : Bool)
    (initResult : Except StorageError Unit) : Except StorageError Unit :=
  if enabled then initResult else .ok ()

/-- `ConversationManager.shutdown`: delegates to the backend with no
`try/except` — a backend exception propagates to the caller. -/
def managerShutdown (enabled : Bool)
    (shutdownResult : Except StorageError Unit) : Except StorageError Unit :=
  if enabled then shutdownResult else .ok ()

/-- The backend kinds `PersistenceFactory.create_storage` can select. -/
inductive PersistenceKind where
  | json
  | database
deriving DecidableEq, Repr

/-- The configuration fields `factory.py` consults. -/
structure SettingsModel where
  persistence_enabled : Bool
  persistence_type : String
deriving DecidableEq, Repr

/-- `PersistenceFactory.create_storage`: `None` when persistence is
disabled, a backend chosen by `persistence_type`, and a `ValueError` for
an unknown type. -/
def createStorage (s : SettingsModel) :
    Except StorageError (Option PersistenceKind) :=
  if !s.persistence_enabled then .ok none
  else if s.persistence_type = "json" then .ok (some .json)
  else if s.persistence_type = "database" then .ok (some .database)
  else .error (.failure ("Unknown persistence type: " ++ s.persistence_type))

/-- Ordering of messages by timestamp, the sort key
`lambda m: m.timestamp` in `_db_to_pydantic_conversation`. -/
def msgLe (a b : ConversationMessage) : Prop := a.timestamp ≤ b.timestamp

instance : DecidableRel msgLe := fun a b =>
  inferInstanceAs (Decidable (a.timestamp ≤ b.timestamp))

/-- Ordering of summaries by creation time, the sort key
`lambda s: s.created_at` in `_db_to_pydantic_conversation`. -/
def summLe (a b : ConversationSummary) : Prop := a.created_at ≤ b.created_at

instance : DecidableRel summLe := fun a b =>
  inferInstanceAs (Decidable (a.created_at ≤ b.created_at))

/-- `_db_to_pydantic_conversation` from `db_storage.py`: reconstruct the
value-level conversation from the rows, sorting children by
timestamp/creation time (Python `sorted` is stable; insertion sort agrees
with it on the already-sorted inputs the theorems use). -/
def dbLoadConv (c : UserConversation) : UserConversation :=
  { c with
    messages := List.insertionSort msgLe c.messages
    summaries := List.insertionSort summLe c.summaries }

/-- The file path key of the JSON backend:
`<root>/<user_id>/<conversation_id>.json`. -/
def jsonKeyMatches (u cid : String) (c : UserConversation) : Bool :=
  c.user_id == u && c.conversation_id == cid

/-- JSON-backend store: one conversation per `(user_id, conversation_id)`
file.  Exact lookup (`get_conversation` with an explicit id, cache
disabled — §5 requires correctness without the cache). -/
def jsonGetConversationById (store : List UserConversation) (u cid : String) :
    Option UserConversation :=
  store.find? (jsonKeyMatches u cid)

/-- Writing a conversation file: replace the record with the same
`(user_id, conversation_id)` path, or add a new file. -/
def jsonUpsert (c : UserConversation) : List UserConversation → List UserConversation
  | [] => [c]
  | x :: rest =>
    if jsonKeyMatches c.user_id c.conversation_id x then c :: rest
    else x :: jsonUpsert c rest

/-- `JsonConversationStorage.save_conversation`: stamps `updated_at` with
the current time, then writes the file. -/
def jsonSaveConversation (now : Time) (c : UserConversation)
    (store : List UserConversation) : List UserConversation :=
  jsonUpsert { c with updated_at := now } store

/-- A fresh `UserConversation(user_id=..., conversation_id=...)` with the
pydantic field defaults from `models.py`. -/
def emptyConversation (now : Time) (u cid : String) : UserConversation :=
  { user_id := u, conversation_id := cid, messages := [], summaries := []
    created_at := now, updated_at := now, is_active := true
    context_window_size := 10 }

/-- `JsonConversationStorage.create_conversation`: builds a fresh
conversation (generated id when none is given) and writes its file
without checking whether the id already exists — an existing file at the
same path is overwritten. -/
def jsonCreateConversation (now : Time) (u : String) (cido : Option String)
    (freshId : String) (store : List UserConversation) :
    UserConversation × List UserConversation :=
  let cid := cido.getD freshId
  let c := emptyConversation now u cid
  (c, jsonUpsert c store)

/-- Database lookup by `conversation_id` alone
(`db_storage.get_conversation` with an explicit id filters only on
`conversation_id`), reconstructing the value model with sorted children. -/
def dbGetConversationById (store : List UserConversation) (cid : String) :
    Option UserConversation :=
  (store.find? (fun c => c.conversation_id == cid)).map dbLoadConv

/-- Pick the conversation with the greatest `updated_at`
(`ORDER BY updated_at DESC ... first()`; ties resolved to the first in
store order). -/
def mostRecentlyUpdated (x : UserConversation) (rest : List UserConversation) :
    UserConversation :=
  rest.foldl (fun best c => if best.updated_at < c.updated_at then c else best) x

/-- `DatabaseConversationStorage.get_conversation`: explicit id ⇒ lookup
by `conversation_id` alone; no id ⇒ the most recently updated active
conversation of the user. -/
def dbGetConversation (store : List UserConversation) (u : String) :
    Option String → Option UserConversation
  | some cid => dbGetConversationById store cid
  | none =>
    match store.filter (fun c => c.user_id == u && c.is_active) with
    | [] => none
    | x :: rest => some (dbLoadConv (mostRecentlyUpdated x rest))

/-- `DatabaseConversationStorage.create_conversation`: inserting a row
whose `conversation_id` already exists violates the UNIQUE constraint of
the `conversations` table and the commit raises. -/
def dbCreateConversation (now : Time) (u : String) (cido : Option String)
    (freshId : String) (store : List UserConversation) :
    Except StorageError (UserConversation × List UserConversation) :=
  let cid := cido.getD freshId
  if store.any (fun c => c.conversation_id == cid) then
    .error (.integrityError
      ("UNIQUE constraint failed: conversations.conversation_id: " ++ cid))
  else
    let c := emptyConversation now u cid
    .ok (c, store ++ [c])

/-- `_pydantic_to_db_conversation` applied to an existing row: only
`updated_at`, `is_active` and `context_window_size` are copied onto the
row (its `user_id` and `created_at` keep their stored values); the
children are then deleted and reinserted from the saved value. -/
def dbMergeRow (old c : UserConversation) : UserConversation :=
  { user_id := old.user_id, conversation_id := old.conversation_id
    messages := c.messages, summaries := c.summaries
    created_at := old.created_at, updated_at := c.updated_at
    is_active := c.is_active, context_window_size := c.context_window_size }

/-- Row-level upsert by `conversation_id` for `save_conversation`:
update the matching row via `dbMergeRow`, or insert a new row carrying
every field of the saved conversation. -/
def dbUpsert (c : UserConversation) : List UserConversation → List UserConversation
  | [] => [c]
  | x :: rest =>
    if x.conversation_id == c.conversation_id then dbMergeRow x c :: rest
    else x :: dbUpsert c rest

/-- `DatabaseConversationStorage.save_conversation`: one transactional
upsert; `updated_at` is whatever the caller's conversation carries — the
save itself does not stamp the current time. -/
def dbSaveConversation (c : UserConversation) (store : List UserConversation) :
    List UserConversation :=
  dbUpsert c store

/-- The `ConversationSummary(summary=..., key_topics=...,
message_count=len(conversation.messages))` built by `create_summary`. -/
def newSummary (now : Time) (text : String) (topics : List String)
    (c : UserConversation) : ConversationSummary :=
  ⟨text, topics, now, c.messages.length⟩

/-- `JsonConversationStorage.create_summary`: `ValueError` when the
conversation is absent, otherwise append the summary and save. -/
def jsonCreateSummary (now : Time) (u cid text : String) (topics : List String)
    (store : List UserConversation) :
    Except StorageError (ConversationSummary × List UserConversation) :=
  match jsonGetConversationById store u cid with
  | none =>
    .error (.notFound ("Conversation " ++ cid ++ " not found for user " ++ u))
  | some c =>
    let s := newSummary now text topics c
    .ok (s, jsonSaveConversation now { c with summaries := c.summaries ++ [s] } store)

/-- `DatabaseConversationStorage.create_summary`: `ValueError` when the
conversation is absent, otherwise append the summary and save. -/
def dbCreateSummary (now : Time) (u cid text : String) (topics : List String)
    (store : List UserConversation) :
    Except StorageError (ConversationSummary × List UserConversation) :=
  match dbGetConversationById store cid with
  | none =>
    .error (.notFound ("Conversation " ++ cid ++ " not found for user " ++ u))
  | some c =>
    let s := newSummary now text topics c
    .ok (s, dbSaveConversation { c with summaries := c.summaries ++ [s] } store)

/-- The retention predicate of `cleanup_old_data`:
`updated_at < cutoff and not is_active`. -/
def cleanupRemovable (cutoff : Time) (c : UserConversation) : Bool :=
  decide (c.updated_at < cutoff) && !c.is_active

/-- The file-scan loop of `JsonConversationStorage.cleanup_old_data`:
unlink every removable conversation file, counting deletions. -/
def jsonCleanupLoop (cutoff : Time) :
    List UserConversation → List UserConversation × Nat
  | [] => ([], 0)
  | c :: rest =>
    let step := jsonCleanupLoop cutoff rest
    if cleanupRemovable cutoff c then (step.1, step.2 + 1)
    else (c :: step.1, step.2)

/-- `JsonConversationStorage.cleanup_old_data`:
`cutoff = utcnow() - timedelta(days=days)`, then the scan loop. -/
def jsonCleanupOldData (now : Time) (days : Nat)
    (store : List UserConversation) : List UserConversation × Nat :=
  jsonCleanupLoop (now - days * secondsPerDay) store

/-- `DatabaseConversationStorage.cleanup_old_data`: select the old
inactive rows, delete them all, return how many were selected. -/
def dbCleanupOldData (now : Time) (days : Nat)
    (store : List UserConversation) : List UserConversation × Nat :=
  let cutoff := now - days * secondsPerDay
  let oldConversations := store.filter (cleanupRemovable cutoff)
  (store.filter (fun c => !(cleanupRemovable cutoff c)), oldConversations.length)

/-- On-disk shape of a message inside a conversation JSON document:
the role is its string value, everything else verbatim (timestamps keep
full precision through ISO-8601). -/
structure StoredMessage where
  id : String
  role : String
  content : String
  timestamp : Time
  metadata : List (String × String)
deriving DecidableEq, Repr

/-- On-disk shape of a summary (no extra validation on load). -/
structure StoredSummary where
  summary : String
  key_topics : List String
  created_at : Time
  message_count : Nat
deriving DecidableEq, Repr

/-- On-disk shape of a conversation JSON document
(`model_dump_json` output). -/
structure StoredConversation where
  user_id : String
  conversation_id : String
  messages : List StoredMessage
  summaries : List StoredSummary
  created_at : Time
  updated_at : Time
  is_active : Bool
  context_window_size : Int
deriving DecidableEq, Repr

/-- Serialize one message (`model_dump_json`). -/
def encodeMessage (m : ConversationMessage) : StoredMessage :=
  ⟨m.id, m.role.toValue, m.content, m.timestamp, m.metadata⟩

/-- Deserialize one message (`model_validate` re-runs the pydantic
validation: id and content length bounds, content strip-and-non-blank,
role enum parse, timestamp not in the future). -/
def decodeMessage (now : Time) (sm : StoredMessage) : Option ConversationMessage :=
  if sm.id.length < 1 then none
  else
    match parseRole sm.role with
    | none => none
    | some r =>
      if sm.content.length < 1 then none
      else if 50000 < sm.content.length then none
      else if pyStrip sm.content = "" then none
      else if now < sm.timestamp then none
      else some ⟨sm.id, r, pyStrip sm.content, sm.timestamp, sm.metadata⟩

/-- Serialize one summary. -/
def encodeSummary (s : ConversationSummary) : StoredSummary :=
  ⟨s.summary, s.key_topics, s.created_at, s.message_count⟩

/-- Deserialize one summary (no field validators). -/
def decodeSummary (ss : StoredSummary) : ConversationSummary :=
  ⟨ss.summary, ss.key_topics, ss.created_at, ss.message_count⟩

/-- Deserialize a message list: pydantic fails the whole document when
any element fails validation. -/
def decodeMessages (now : Time) :
    List StoredMessage → Option (List ConversationMessage)
  | [] => some []
  | sm :: rest =>
    match decodeMessage now sm, decodeMessages now rest with
    | some m, some ms => some (m :: ms)
    | _, _ => none

/-- Serialize a conversation to its JSON document
(`_save_conversation_to_file`). -/
def encodeConversation (c : UserConversation) : StoredConversation :=
  ⟨c.user_id, c.conversation_id, c.messages.map encodeMessage,
   c.summaries.map encodeSummary, c.created_at, c.updated_at,
   c.is_active, c.context_window_size⟩

/-- Deserialize a conversation document
(`_load_conversation_from_file` / `UserConversation.model_validate`). -/
def decodeConversation (now : Time) (sc : StoredConversation) :
    Option UserConversation :=
  match decodeMessages now sc.messages with
  | none => none
  | some msgs =>
    some ⟨sc.user_id, sc.conversation_id, msgs, sc.summaries.map decodeSummary,
          sc.created_at, sc.updated_at, sc.is_active, sc.context_window_size⟩

/-- A message pydantic would accept at construction time: non-empty id,
content within bounds and already stripped, timestamp not in the future.
Every `ConversationMessage` the code constructs satisfies this. -/
def ValidMessage (now : Time) (m : ConversationMessage) : Prop :=
  1 ≤ m.id.length ∧ 1 ≤ m.content.length ∧ m.content.length ≤ 50000 ∧
  pyStrip m.content = m.content ∧ m.timestamp ≤ now

instance (now : Time) (m : ConversationMessage) :
    Decidable (ValidMessage now m) := by
  unfold ValidMessage
  infer_instance

/-- A stored conversation holding one message, used to show what
creating a duplicate id does on each backend. -/
def exConvC3 : UserConversation :=
  ⟨"u1", "c1", [⟨"m1", .user, "hi", 1, []⟩], [], 0, 1, true, 10⟩

/-- A conversation carrying a stale `updated_at` of 5, saved (conceptually)
at time 10. -/
def exConvC4 : UserConversation := ⟨"u4", "c4", [], [], 0, 5, true, 10⟩

/-- C6 counterexample messages: stored out of timestamp order. -/
def exMsgC6a : ConversationMessage := ⟨"a", .user, "first", 2, []⟩

/-- Second C6 counterexample message, with the earlier timestamp. -/
def exMsgC6b : ConversationMessage := ⟨"b", .assistant, "second", 1, []⟩

/-- A conversation whose message list is not sorted by timestamp. -/
def exConvC6 : UserConversation :=
  ⟨"u6", "c6", [exMsgC6a, exMsgC6b], [], 0, 2, true, 10⟩

/-- A valid, sorted conversation for the C6 witness. -/
def exConvC6w : UserConversation :=
  ⟨"u6w", "c6w",
   [⟨"m1", .user, "alpha", 1, []⟩, ⟨"m2", .assistant, "beta", 2, []⟩],
   [⟨"s", ["t"], 3, 2⟩], 0, 3, true, 10⟩

/-- The active conversation of the C7 witness store (never removed). -/
def exConvC7keep : UserConversation := ⟨"u7", "c", [], [], 0, 0, true, 10⟩

/-- C7 witness store: two archived backdated conversations plus one
active conversation. -/
def exStoreC7 : List UserConversation :=
  [⟨"u7", "a", [], [], 0, 0, false, 10⟩,
   ⟨"u7", "b", [], [], 0, 0, false, 10⟩,
   exConvC7keep]

/-- A conversation owned by user `alice`, looked up by a different user
in the C10 witness. -/
def exConvC10 : UserConversation :=
  ⟨"alice", "c10", [⟨"m", .user, "hi", 1, []⟩], [], 0, 1, true, 10⟩

/-- Example message for the C1 counterexample. -/
def exMsgC1 : ConversationMessage := ⟨"m1", .user, "hello", 1, []⟩

/-- A conversation whose `context_window_size` is 0: Python's
`messages[-0:]` slice returns the whole list. -/
def exConvC1 : UserConversation :=
  ⟨"u1", "c1", [exMsgC1], [], 0, 1, true, 0⟩

/-- Concrete conversation used to instantiate the C1 theorem. -/
def exConvC1w : UserConversation :=
  ⟨"u2", "c2",
   [⟨"m1", .user, "one", 1, []⟩, ⟨"m2", .assistant, "two", 2, []⟩,
    ⟨"m3", .user, "three", 3, []⟩],
   [⟨"sum", ["topic"], 4, 3⟩], 0, 4, true, 2⟩

/-- The synthetic summary message the code builds for `exConvC1w`. -/
def exMsgC1wSummary : ConversationMessage :=
  ⟨"summary_4", .system, "Previous conversation summary: sum", 4, []⟩

/-- A pre-existing relational row with conversation id `c4` but a
different owner, state and children, overwritten by the C4 update-arm
witness. -/
def exOldRowC4 : UserConversation :=
  ⟨"u4old", "c4", [⟨"mOld", .user, "old", 1, []⟩], [⟨"oldsum", [], 2, 1⟩],
   0, 3, false, 7⟩

/-! ### Claim C1 -/

/-- A successful pydantic message construction yields exactly the
validated record (stripped content, empty metadata). -/
theorem mkValidatedMessage_inv (now : Time) (id : String) (role : MessageRole)
    (content : String) (timestamp : Time) (m : ConversationMessage)
    (h : mkValidatedMessage now id role content timestamp = some m) :
    m = ⟨id, role, pyStrip content, timestamp, []⟩ := by
  unfold mkValidatedMessage at h
  split_ifs at h <;> cases h <;> rfl

/-- The trailing window `messages[-context_window_size:]` is the last
`context_window_size` messages when the window size is positive. -/
theorem recentWindow_eq_drop (c : UserConversation)
    (h : 0 < c.context_window_size) :
    (if c.messages.isEmpty then []
     else pySliceFrom (-(c.context_window_size)) c.messages) =
      c.messages.drop (c.messages.length - c.context_window_size.toNat) := by
  have hneg : -(c.context_window_size) < 0 := by omega
  cases hm : c.messages with
  | nil => simp
  | cons a rest =>
    have harith :
        Int.toNat (((a :: rest).length : Int) + -(c.context_window_size)) =
          (a :: rest).length - c.context_window_size.toNat := by omega
    simp only [List.isEmpty_cons, Bool.false_eq_true, if_false,
      pySliceFrom, if_pos hneg, harith]

/-- C1 (amended): for every conversation whose `context_window_size` is
positive, `get_context_messages` with `include_summary=true` returns,
when no summary exists, exactly the last `context_window_size` stored
messages in order; when a summary exists and the synthetic message
passes pydantic validation, that single system-role message — whose
content is the *stripped* `"Previous conversation summary: "`-prefixed
summary text, equal to the unstripped form whenever the summary text has
no trailing whitespace — followed by the same trailing window; and the
window never exceeds `context_window_size` messages.  (For
`context_window_size = 0` the Python slice `messages[-0:]` returns every
message, so the bound fails there; see the counterexample.) -/
theorem c1_context_window (now : Time) (c : UserConversation)
    (h : 0 < c.context_window_size) :
    (latestSummaryOpt c = none →
      getContextMessages now (some c) true =
        some (c.messages.drop
          (c.messages.length - c.context_window_size.toNat))) ∧
    (∀ ls m, latestSummaryOpt c = some ls → mkSummaryMessage now ls = some m →
      getContextMessages now (some c) true =
        some (m :: c.messages.drop
          (c.messages.length - c.context_window_size.toNat)) ∧
      m.role = .system ∧
      m.content = pyStrip ("Previous conversation summary: " ++ ls.summary) ∧
      m.timestamp = ls.created_at) ∧
    (c.messages.drop (c.messages.length - c.context_window_size.toNat)).length
        ≤ c.context_window_size.toNat := by
  refine ⟨?_, ?_, ?_⟩
  · intro hnone
    show getRecentContext now c true = _
    unfold getRecentContext
    rw [recentWindow_eq_drop c h, hnone]
    rfl
  · intro ls m hls hm
    have hminv := mkValidatedMessage_inv now _ _ _ _ m hm
    refine ⟨?_, ?_, ?_, ?_⟩
    · show getRecentContext now c true = _
      unfold getRecentContext
      rw [recentWindow_eq_drop c h, hls]
      simp only [hm]
      rfl
    · rw [hminv]
    · rw [hminv]
    · rw [hminv]
  · rw [List.length_drop]
    omega

/-- Witness for C1 at a conversation with window size 2, three messages
and one summary whose synthetic message validates at time 10. -/
theorem c1_context_window_witness :
    0 < exConvC1w.context_window_size ∧
    getContextMessages 10 (some exConvC1w) true =
      some (exMsgC1wSummary :: exConvC1w.messages.drop
        (exConvC1w.messages.length - exConvC1w.context_window_size.toNat)) ∧
    exMsgC1wSummary.role = .system ∧
    exMsgC1wSummary.content =
      pyStrip ("Previous conversation summary: " ++
        (⟨"sum", ["topic"], 4, 3⟩ : ConversationSummary).summary) ∧
    exMsgC1wSummary.timestamp =
      (⟨"sum", ["topic"], 4, 3⟩ : ConversationSummary).created_at ∧
    (exConvC1w.messages.drop
        (exConvC1w.messages.length - exConvC1w.context_window_size.toNat)).length
      ≤ exConvC1w.context_window_size.toNat :=
  have h := c1_context_window 10 exConvC1w (by decide)
  have h2 := h.2.1 ⟨"sum", ["topic"], 4, 3⟩ exMsgC1wSummary (by decide)
    (by decide)
  ⟨by decide, h2.1, h2.2.1, h2.2.2.1, h2.2.2.2, h.2.2⟩

/-- C1 counterexample: with `context_window_size = 0` the code returns the
entire message list (Python `messages[-0:]` is the whole list), so the
returned message count exceeds `context_window_size`. -/
theorem c1_counterexample :
    exConvC1.context_window_size = 0 ∧
    getContextMessages 10 (some exConvC1) true = some [exMsgC1] ∧
    (getContextMessages 10 (some exConvC1) true).map List.length = some 1 ∧
    ¬ ((1 : Nat) ≤ exConvC1.context_window_size.toNat) := by
  refine ⟨rfl, ?_, ?_, ?_⟩ <;> decide

/-! ### Claim C2 -/

/-- C2: for every conversation and threshold, `should_summarize_conversation`
is true iff the message count has reached the threshold and either no
summary exists or at least `threshold // 2` messages are strictly newer
than the latest summary. -/
theorem c2_should_summarize_iff (c : UserConversation) (t : Nat) :
    shouldSummarizeConversation (some c) t = true ↔
      (t ≤ c.messages.length ∧
        (c.summaries = [] ∨
          ∃ ls, latestSummaryOpt c = some ls ∧
            t / 2 ≤ (messagesAfter c ls.created_at).length)) := by
  unfold shouldSummarizeConversation shouldSummarize latestSummaryOpt messagesAfter
  cases hs : c.summaries with
  | nil =>
    by_cases hlen : c.messages.length < t
    · simp only [hs, if_pos hlen]
      constructor
      · intro h; exact absurd h (by simp)
      · rintro ⟨h1, -⟩; omega
    · simp only [hs, if_neg hlen]
      constructor
      · intro _; exact ⟨by omega, Or.inl trivial⟩
      · intro _; exact trivial
  | cons s0 rest =>
    by_cases hlen : c.messages.length < t
    · simp only [hs, if_pos hlen]
      constructor
      · intro h; exact absurd h (by simp)
      · rintro ⟨h1, -⟩; omega
    · simp only [hs, if_neg hlen]
      constructor
      · intro h
        exact ⟨by omega, Or.inr ⟨latestSummary s0 rest, rfl, of_decide_eq_true h⟩⟩
      · rintro ⟨-, h | ⟨ls, hls, hcount⟩⟩
        · exact absurd h (by simp)
        · injection hls with hls'
          subst hls'
          exact decide_eq_true hcount

/-- Witness for C2 at a concrete conversation: threshold 4 reached, one
summary, two strictly newer messages ≥ 4 / 2. -/
theorem c2_should_summarize_iff_witness :
    shouldSummarizeConversation
      (some { user_id := "u1", conversation_id := "c1"
              messages := [⟨"m1", .user, "a", 1, []⟩, ⟨"m2", .assistant, "b", 2, []⟩,
                           ⟨"m3", .user, "c", 8, []⟩, ⟨"m4", .assistant, "d", 9, []⟩]
              summaries := [⟨"s", [], 5, 2⟩]
              created_at := 0, updated_at := 9, is_active := true
              context_window_size := 10 }) 4 = true :=
  (c2_should_summarize_iff _ 4).mpr
    ⟨by decide, .inr ⟨⟨"s", [], 5, 2⟩, by decide, by decide⟩⟩

/-! ### Claim C5 -/

/-- C5 (amended): every public Manager operation method — message
appends, context retrieval, summarization trigger, summary creation,
history clearing, stats, cleanup and health check — catches every backend
exception and returns its safe default (`False`, `[]`, `None`, `0`, or an
unhealthy report) instead of propagating it; `initialize` and `shutdown`
are the two public methods without this containment (see the
counterexample). -/
theorem c5_manager_error_containment
    (e : StorageError) (threshold : Nat)
    (cr : UserConversation → Except StorageError ConversationSummary)
    (ar : UserConversation → Except StorageError Bool)
    (c : UserConversation) :
    managerAddUserMessage true (.error e) = .ok false ∧
    managerAddAssistantMessage true (.error e) = .ok false ∧
    managerGetConversationContext true (.error e) = .ok [] ∧
    managerShouldSummarizeConversation true threshold (.error e) = .ok false ∧
    managerCreateConversationSummary true (.error e) cr = .ok false ∧
    managerCreateConversationSummary true (.ok (some c)) (fun _ => .error e) =
      .ok false ∧
    managerClearConversationHistory true (.error e) ar = .ok false ∧
    managerClearConversationHistory true (.ok (some c)) (fun _ => .error e) =
      .ok false ∧
    managerGetUserStats true (.error e) = .ok none ∧
    managerCleanupOldConversations true (.error e) = .ok 0 ∧
    managerHealthCheck true (.error e) = .ok ⟨true, false, e.message⟩ :=
  ⟨rfl, rfl, rfl, rfl, rfl, rfl, rfl, rfl, rfl, rfl, rfl⟩

/-- Witness for C5 at a concrete backend failure. -/
theorem c5_manager_error_containment_witness :
    managerAddUserMessage true (.error (.failure "disk full")) = .ok false ∧
    managerAddAssistantMessage true (.error (.failure "disk full")) = .ok false ∧
    managerGetConversationContext true (.error (.failure "disk full")) = .ok [] ∧
    managerShouldSummarizeConversation true 50 (.error (.failure "disk full")) =
      .ok false ∧
    managerCreateConversationSummary true (.error (.failure "disk full"))
      (fun _ => .error (.failure "boom")) = .ok false ∧
    managerCreateConversationSummary true (.ok (some exConvC1w))
      (fun _ => .error (.failure "disk full")) = .ok false ∧
    managerClearConversationHistory true (.error (.failure "disk full"))
      (fun _ => .error (.failure "boom")) = .ok false ∧
    managerClearConversationHistory true (.ok (some exConvC1w))
      (fun _ => .error (.failure "disk full")) = .ok false ∧
    managerGetUserStats true (.error (.failure "disk full")) = .ok none ∧
    managerCleanupOldConversations true (.error (.failure "disk full")) = .ok 0 ∧
    managerHealthCheck true (.error (.failure "disk full")) =
      .ok ⟨true, false, (StorageError.failure "disk full").message⟩ :=
  c5_manager_error_containment (.failure "disk full") 50
    (fun _ => .error (.failure "boom")) (fun _ => .error (.failure "boom"))
    exConvC1w

/-- C5 counterexample: `ConversationManager.initialize` and `shutdown`
are public Manager methods with no `try/except` — a backend exception
escapes to the caller instead of being converted to a safe default. -/
theorem c5_counterexample :
    managerInitialize true (.error (.failure "disk full")) =
      .error (.failure "disk full") ∧
    managerShutdown true (.error (.failure "disk full")) =
      .error (.failure "disk full") :=
  ⟨rfl, rfl⟩

/-! ### Claim C9 -/

/-- C9: with persistence disabled every public Manager method returns its
documented no-op default — `False` for message, summary and clear
operations, `[]` for context, `None` for stats, `0` for cleanup, the
disabled-but-healthy sentinel for `health_check`, and unit for
`initialize`/`shutdown` — for every possible backend outcome, so no
storage operation is ever consulted; and the factory returns no backend
when the enabled flag is off. -/
theorem c9_disabled_manager_no_op
    (rmsg : Except StorageError ConversationMessage)
    (rctx : Except StorageError (List ConversationMessage))
    (threshold : Nat)
    (rconv : Except StorageError (Option UserConversation))
    (cr : UserConversation → Except StorageError ConversationSummary)
    (ar : UserConversation → Except StorageError Bool)
    (rstats : Except StorageError ConversationStats)
    (rclean : Except StorageError Nat)
    (rhealth : Except StorageError HealthStatus)
    (rinit : Except StorageError Unit)
    (ptype : String) :
    managerAddUserMessage false rmsg = .ok false ∧
    managerAddAssistantMessage false rmsg = .ok false ∧
    managerGetConversationContext false rctx = .ok [] ∧
    managerShouldSummarizeConversation false threshold rconv = .ok false ∧
    managerCreateConversationSummary false rconv cr = .ok false ∧
    managerClearConversationHistory false rconv ar = .ok false ∧
    managerGetUserStats false rstats = .ok none ∧
    managerCleanupOldConversations false rclean = .ok 0 ∧
    managerHealthCheck false rhealth = .ok disabledHealth ∧
    managerInitialize false rinit = .ok () ∧
    managerShutdown false rinit = .ok () ∧
    createStorage ⟨false, ptype⟩ = .ok none :=
  ⟨rfl, rfl, rfl, rfl, rfl, rfl, rfl, rfl, rfl, rfl, rfl, rfl⟩

/-- Witness for C9 at concrete (failing) backend outcomes, showing the
disabled manager ignores them. -/
theorem c9_disabled_manager_no_op_witness :
    managerAddUserMessage false (.error (.failure "down")) = .ok false ∧
    managerAddAssistantMessage false (.error (.failure "down")) = .ok false ∧
    managerGetConversationContext false (.error (.failure "down")) = .ok [] ∧
    managerShouldSummarizeConversation false 50 (.error (.failure "down")) =
      .ok false ∧
    managerCreateConversationSummary false (.error (.failure "down"))
      (fun _ => .error (.failure "down")) = .ok false ∧
    managerClearConversationHistory false (.error (.failure "down"))
      (fun _ => .error (.failure "down")) = .ok false ∧
    managerGetUserStats false (.error (.failure "down")) = .ok none ∧
    managerCleanupOldConversations false (.error (.failure "down")) = .ok 0 ∧
    managerHealthCheck false (.error (.failure "down")) = .ok disabledHealth ∧
    managerInitialize false (.error (.failure "down")) = .ok () ∧
    managerShutdown false (.error (.failure "down")) = .ok () ∧
    createStorage ⟨false, "json"⟩ = .ok none :=
  c9_disabled_manager_no_op (.error (.failure "down"))
    (.error (.failure "down")) 50 (.error (.failure "down"))
    (fun _ => .error (.failure "down")) (fun _ => .error (.failure "down"))
    (.error (.failure "down")) (.error (.failure "down"))
    (.error (.failure "down")) (.error (.failure "down")) "json"

/-! ### Storage-level helper lemmas -/

/-- A conversation matches its own file key. -/
theorem jsonKeyMatches_self (c : UserConversation) :
    jsonKeyMatches c.user_id c.conversation_id c = true := by
  simp [jsonKeyMatches]

/-- Looking a conversation up right after writing its file finds exactly
the written value. -/
theorem jsonGet_jsonUpsert (c : UserConversation) (store : List UserConversation) :
    jsonGetConversationById (jsonUpsert c store) c.user_id c.conversation_id =
      some c := by
  unfold jsonGetConversationById
  induction store with
  | nil =>
    simp only [jsonUpsert]
    exact List.find?_cons_of_pos _ (jsonKeyMatches_self c)
  | cons x rest ih =>
    simp only [jsonUpsert]
    by_cases hx : jsonKeyMatches c.user_id c.conversation_id x = true
    · rw [if_pos hx]
      exact List.find?_cons_of_pos _ (jsonKeyMatches_self c)
    · rw [if_neg hx, List.find?_cons_of_neg _ hx]
      exact ih

/-- Row lookup after inserting a conversation id not previously present. -/
theorem dbFind_dbUpsert_absent (c : UserConversation)
    (store : List UserConversation)
    (habs : ∀ x ∈ store, (x.conversation_id == c.conversation_id) = false) :
    (dbUpsert c store).find? (fun y => y.conversation_id == c.conversation_id) =
      some c := by
  induction store with
  | nil =>
    simp only [dbUpsert]
    exact List.find?_cons_of_pos _ (by simp)
  | cons x rest ih =>
    simp only [dbUpsert]
    have hx := habs x (List.mem_cons_self x rest)
    rw [if_neg (by simp [hx]), List.find?_cons_of_neg _ (by simp [hx])]
    exact ih (fun y hy => habs y (List.mem_cons_of_mem x hy))

/-- Row lookup after saving over an existing row: the first row with the
saved conversation id is replaced by the merge of the old row and the
saved conversation, and the lookup returns that merged row. -/
theorem dbFind_dbUpsert_present (c x : UserConversation)
    (pre post : List UserConversation)
    (hpre : ∀ y ∈ pre, (y.conversation_id == c.conversation_id) = false)
    (hx : (x.conversation_id == c.conversation_id) = true) :
    (dbUpsert c (pre ++ x :: post)).find?
        (fun y => y.conversation_id == c.conversation_id) =
      some (dbMergeRow x c) := by
  induction pre with
  | nil =>
    simp only [List.nil_append, dbUpsert]
    rw [if_pos hx]
    exact List.find?_cons_of_pos _ (by simpa [dbMergeRow] using hx)
  | cons y rest ih =>
    simp only [List.cons_append, dbUpsert]
    have hy := hpre y (List.mem_cons_self y rest)
    rw [if_neg (by simp [hy]), List.find?_cons_of_neg _ (by simp [hy])]
    exact ih (fun z hz => hpre z (List.mem_cons_of_mem y hz))

/-- `find?` returns the unique element satisfying the predicate. -/
theorem find?_eq_some_of_unique {α : Type} {p : α → Bool} {l : List α} {a : α}
    (ha : a ∈ l) (hpa : p a = true)
    (huniq : ∀ b ∈ l, p b = true → b = a) :
    l.find? p = some a := by
  induction l with
  | nil => cases ha
  | cons x rest ih =>
    by_cases hx : p x = true
    · have hxa : x = a := huniq x (List.mem_cons_self x rest) hx
      rw [List.find?_cons_of_pos _ hx, hxa]
    · have ha' : a ∈ rest := by
        rcases List.mem_cons.mp ha with h | h
        · exact absurd (h ▸ hpa) hx
        · exact h
      rw [List.find?_cons_of_neg _ hx]
      exact ih ha' (fun b hb hpb => huniq b (List.mem_cons_of_mem x hb) hpb)

/-- The cleanup scan keeps exactly the non-removable conversations and
counts exactly the removable ones. -/
theorem jsonCleanupLoop_eq (cutoff : Time) (store : List UserConversation) :
    jsonCleanupLoop cutoff store =
      (store.filter (fun c => !(cleanupRemovable cutoff c)),
       (store.filter (cleanupRemovable cutoff)).length) := by
  induction store with
  | nil => rfl
  | cons c rest ih =>
    simp only [jsonCleanupLoop, ih]
    cases hc : cleanupRemovable cutoff c <;>
      simp [List.filter_cons, hc]

/-- Parsing the serialized role value restores the role. -/
theorem parseRole_toValue (r : MessageRole) : parseRole r.toValue = some r := by
  cases r <;> rfl

/-- Deserializing a serialized valid message restores it exactly. -/
theorem decodeMessage_encodeMessage (now : Time) (m : ConversationMessage)
    (h : ValidMessage now m) :
    decodeMessage now (encodeMessage m) = some m := by
  obtain ⟨h1, h2, h3, h4, h5⟩ := h
  have hne : ¬(pyStrip m.content = "") := by
    rw [h4]
    intro he
    rw [he] at h2
    simp at h2
  unfold decodeMessage encodeMessage
  dsimp only
  rw [parseRole_toValue]
  dsimp only
  rw [if_neg (show ¬(m.id.length < 1) by omega),
    if_neg (show ¬(m.content.length < 1) by omega),
    if_neg (show ¬(50000 < m.content.length) by omega),
    if_neg hne,
    if_neg (not_lt.mpr h5), h4]

/-- Element-wise deserialization of a serialized valid message list. -/
theorem decodeMessages_map_encode (now : Time) (msgs : List ConversationMessage)
    (h : ∀ m ∈ msgs, ValidMessage now m) :
    decodeMessages now (msgs.map encodeMessage) = some msgs := by
  induction msgs with
  | nil => rfl
  | cons m rest ih =>
    simp only [List.map_cons, decodeMessages,
      decodeMessage_encodeMessage now m (h m (List.mem_cons_self m rest)),
      ih (fun x hx => h x (List.mem_cons_of_mem m hx))]

/-! ### Claim C3 -/

/-- C3: the spec requires `create_conversation` with an already-existing
id to fail with a duplicate-id error.  The relational backend does fail
(UNIQUE constraint on `conversation_id`), but the file backend performs
no existence check: it succeeds and overwrites the stored conversation
with a fresh empty one, losing its messages. -/
theorem c3_duplicate_create_divergence :
    jsonCreateConversation 100 "u1" (some "c1") "fresh-id" [exConvC3] =
      (emptyConversation 100 "u1" "c1", [emptyConversation 100 "u1" "c1"]) ∧
    jsonGetConversationById
        (jsonCreateConversation 100 "u1" (some "c1") "fresh-id" [exConvC3]).2
        "u1" "c1" = some (emptyConversation 100 "u1" "c1") ∧
    (emptyConversation 100 "u1" "c1").messages = [] ∧
    exConvC3.messages ≠ [] ∧
    dbCreateConversation 100 "u1" (some "c1") "fresh-id" [exConvC3] =
      .error (.integrityError
        "UNIQUE constraint failed: conversations.conversation_id: c1") :=
  ⟨rfl, rfl, rfl, by decide, rfl⟩

/-! ### Claim C4 -/

/-- C4 (amended): `save_conversation` is a full upsert by conversation id
and a subsequent read observes the complete saved messages and
summaries — on insert (id not yet stored) and on update (saving over an
existing row, whose merged row carries exactly the saved children and
the caller's `updated_at`, keeping only the old row's owner and creation
time) — but only the file backend stamps `updated_at` with the save
time; the relational backend persists the caller-supplied `updated_at`
unchanged (and returns children re-sorted on read). -/
theorem c4_save_observed (now : Time) (c : UserConversation)
    (store store2 : List UserConversation)
    (habs : ∀ x ∈ store2, (x.conversation_id == c.conversation_id) = false) :
    jsonGetConversationById (jsonSaveConversation now c store) c.user_id
        c.conversation_id = some { c with updated_at := now } ∧
    dbGetConversationById (dbSaveConversation c store2) c.conversation_id =
      some (dbLoadConv c) ∧
    (∀ pre x post,
      (∀ y ∈ pre, (y.conversation_id == c.conversation_id) = false) →
      (x.conversation_id == c.conversation_id) = true →
      dbGetConversationById (dbSaveConversation c (pre ++ x :: post))
          c.conversation_id = some (dbLoadConv (dbMergeRow x c)) ∧
      (dbMergeRow x c).messages = c.messages ∧
      (dbMergeRow x c).summaries = c.summaries ∧
      (dbMergeRow x c).updated_at = c.updated_at ∧
      (dbMergeRow x c).is_active = c.is_active ∧
      (dbMergeRow x c).context_window_size = c.context_window_size) := by
  refine ⟨?_, ?_, ?_⟩
  · unfold jsonSaveConversation
    exact jsonGet_jsonUpsert { c with updated_at := now } store
  · unfold dbGetConversationById dbSaveConversation
    rw [dbFind_dbUpsert_absent c store2 habs]
    rfl
  · intro pre x post hpre hx
    refine ⟨?_, rfl, rfl, rfl, rfl, rfl⟩
    unfold dbGetConversationById dbSaveConversation
    rw [dbFind_dbUpsert_present c x pre post hpre hx]
    rfl

/-- Witness for C4: insert into an empty store, and update over an
existing row with the same conversation id but a different owner. -/
theorem c4_save_observed_witness :
    jsonGetConversationById (jsonSaveConversation 10 exConvC4 []) "u4" "c4" =
      some { exConvC4 with updated_at := 10 } ∧
    dbGetConversationById (dbSaveConversation exConvC4 []) "c4" =
      some (dbLoadConv exConvC4) ∧
    dbGetConversationById (dbSaveConversation exConvC4 [exOldRowC4]) "c4" =
      some (dbLoadConv (dbMergeRow exOldRowC4 exConvC4)) ∧
    (dbMergeRow exOldRowC4 exConvC4).messages = exConvC4.messages ∧
    (dbMergeRow exOldRowC4 exConvC4).updated_at = exConvC4.updated_at :=
  have h := c4_save_observed 10 exConvC4 [] []
    (fun x hx => absurd hx (List.not_mem_nil x))
  have hupd := h.2.2 [] exOldRowC4 []
    (fun y hy => absurd hy (List.not_mem_nil y)) (by decide)
  ⟨h.1, h.2.1, hupd.1, hupd.2.1, hupd.2.2.2.1⟩

/-- C4 counterexample: the relational backend saves `exConvC4` (whose
`updated_at` is the stale value 5) at save time 10, yet the subsequent
read observes `updated_at = 5 < 10` — the save did not update
`updated_at`.  The file backend saving at 10 observes 10. -/
theorem c4_counterexample :
    (dbGetConversationById (dbSaveConversation exConvC4 []) "c4").map
        UserConversation.updated_at = some 5 ∧
    ¬ ((10 : Int) ≤ 5) ∧
    (jsonGetConversationById (jsonSaveConversation 10 exConvC4 []) "u4"
        "c4").map UserConversation.updated_at = some 10 := by
  refine ⟨?_, ?_, ?_⟩ <;> decide

/-! ### Claim C6 -/

/-- C6 (amended): serializing a conversation of valid messages to its
JSON document and deserializing restores every message and summary
field-for-field (file backend); the relational save/read round-trip
restores the conversation exactly when its messages are sorted by
timestamp and its summaries by creation time (the §3 invariant) —
otherwise the read returns the children re-sorted (see the
counterexample). -/
theorem c6_round_trip (now : Time) (c : UserConversation)
    (hvalid : ∀ m ∈ c.messages, ValidMessage now m) :
    decodeConversation now (encodeConversation c) = some c ∧
    (List.Sorted msgLe c.messages → List.Sorted summLe c.summaries →
      dbGetConversationById (dbSaveConversation c []) c.conversation_id =
        some c) := by
  constructor
  · unfold decodeConversation encodeConversation
    simp only [decodeMessages_map_encode now c.messages hvalid]
    simp [List.map_map,
      show decodeSummary ∘ encodeSummary = id from funext (fun s => rfl)]
  · intro hm hs
    unfold dbGetConversationById dbSaveConversation
    simp only [dbUpsert]
    rw [List.find?_cons_of_pos _ (by simp)]
    simp [dbLoadConv, List.Sorted.insertionSort_eq hm,
      List.Sorted.insertionSort_eq hs]

/-- Witness for C6 at a sorted, valid two-message conversation. -/
theorem c6_round_trip_witness :
    decodeConversation 10 (encodeConversation exConvC6w) = some exConvC6w ∧
    dbGetConversationById (dbSaveConversation exConvC6w [])
      exConvC6w.conversation_id = some exConvC6w :=
  have h := c6_round_trip 10 exConvC6w (by decide)
  ⟨h.1, h.2 (by decide) (by decide)⟩

/-- C6 counterexample: a conversation whose two messages are stored out
of timestamp order round-trips through the relational backend with the
messages reordered, so the re-read conversation differs from the saved
one. -/
theorem c6_counterexample :
    dbGetConversationById (dbSaveConversation exConvC6 []) "c6" =
      some { exConvC6 with messages := [exMsgC6b, exMsgC6a] } ∧
    dbGetConversationById (dbSaveConversation exConvC6 []) "c6" ≠
      some exConvC6 := by
  constructor <;> decide

/-! ### Claim C7 -/

/-- C7: for every retention window, `cleanup_old_data` of either backend
removes exactly the conversations that are inactive and strictly older
than `now - days`, returns how many it removed, and never removes an
active or recently-updated conversation. -/
theorem c7_cleanup_exact (now : Time) (days : Nat)
    (store : List UserConversation) :
    jsonCleanupOldData now days store =
      (store.filter
        (fun c => !(cleanupRemovable (now - days * secondsPerDay) c)),
       (store.filter (cleanupRemovable (now - days * secondsPerDay))).length) ∧
    dbCleanupOldData now days store = jsonCleanupOldData now days store ∧
    (∀ c ∈ store,
      (c ∈ (jsonCleanupOldData now days store).1 ↔
        (c.is_active = true ∨
          ¬(c.updated_at < now - days * secondsPerDay)))) := by
  refine ⟨jsonCleanupLoop_eq _ store, ?_, ?_⟩
  · unfold dbCleanupOldData jsonCleanupOldData
    rw [jsonCleanupLoop_eq]
  · intro c hc
    unfold jsonCleanupOldData
    rw [jsonCleanupLoop_eq]
    simp only [List.mem_filter, hc, true_and, cleanupRemovable]
    cases hact : c.is_active <;>
      by_cases hlt : c.updated_at < now - (days : Int) * secondsPerDay <;>
        simp [hact, hlt]

/-- Witness for C7, mirroring the spec scenario: three conversations, the
two archived backdated ones are removed (count 2), the active one kept. -/
theorem c7_cleanup_exact_witness :
    jsonCleanupOldData 8640000 30 exStoreC7 = ([exConvC7keep], 2) ∧
    dbCleanupOldData 8640000 30 exStoreC7 = ([exConvC7keep], 2) ∧
    (exConvC7keep ∈ (jsonCleanupOldData 8640000 30 exStoreC7).1 ↔
      (exConvC7keep.is_active = true ∨
        ¬(exConvC7keep.updated_at < 8640000 - (30 : Int) * secondsPerDay))) :=
  ⟨by decide, by decide,
    (c7_cleanup_exact 8640000 30 exStoreC7).2.2 exConvC7keep (by decide)⟩

/-! ### Claim C8 -/

/-- C8: `create_summary` on either backend fails with a not-found error
exactly when the target conversation is absent; otherwise it returns a
summary whose `message_count` equals the conversation's message count at
creation time and appends it to the stored conversation. -/
theorem c8_create_summary_spec (now : Time) (u cid text : String)
    (topics : List String) (store : List UserConversation) :
    (jsonGetConversationById store u cid = none →
      jsonCreateSummary now u cid text topics store =
        .error (.notFound
          ("Conversation " ++ cid ++ " not found for user " ++ u))) ∧
    (∀ c, jsonGetConversationById store u cid = some c →
      jsonCreateSummary now u cid text topics store =
        .ok (newSummary now text topics c,
          jsonSaveConversation now
            { c with summaries := c.summaries ++ [newSummary now text topics c] }
            store) ∧
      (newSummary now text topics c).message_count = c.messages.length) ∧
    (dbGetConversationById store cid = none →
      dbCreateSummary now u cid text topics store =
        .error (.notFound
          ("Conversation " ++ cid ++ " not found for user " ++ u))) ∧
    (∀ c, dbGetConversationById store cid = some c →
      dbCreateSummary now u cid text topics store =
        .ok (newSummary now text topics c,
          dbSaveConversation
            { c with summaries := c.summaries ++ [newSummary now text topics c] }
            store) ∧
      (newSummary now text topics c).message_count = c.messages.length) := by
  refine ⟨?_, ?_, ?_, ?_⟩
  · intro h
    unfold jsonCreateSummary
    rw [h]
  · intro c h
    unfold jsonCreateSummary
    rw [h]
    exact ⟨rfl, rfl⟩
  · intro h
    unfold dbCreateSummary
    rw [h]
  · intro c h
    unfold dbCreateSummary
    rw [h]
    exact ⟨rfl, rfl⟩

/-- Witness for C8: a missing conversation id fails; an existing one gets
a summary counting its single message. -/
theorem c8_create_summary_spec_witness :
    jsonCreateSummary 50 "u1" "missing" "sum" [] [exConvC3] =
      .error (.notFound "Conversation missing not found for user u1") ∧
    dbCreateSummary 50 "u9" "c1" "sum" ["t"] [exConvC3] =
      .ok (newSummary 50 "sum" ["t"] exConvC3,
        dbSaveConversation
          { exConvC3 with
            summaries := exConvC3.summaries ++ [newSummary 50 "sum" ["t"] exConvC3] }
          [exConvC3]) ∧
    (newSummary 50 "sum" ["t"] exConvC3).message_count =
      exConvC3.messages.length := by
  refine ⟨?_, ?_, ?_⟩
  · exact (c8_create_summary_spec 50 "u1" "missing" "sum" [] [exConvC3]).1 rfl
  · exact (((c8_create_summary_spec 50 "u9" "c1" "sum" ["t"]
      [exConvC3]).2.2.2) exConvC3 rfl).1
  · exact (((c8_create_summary_spec 50 "u9" "c1" "sum" ["t"]
      [exConvC3]).2.2.2) exConvC3 rfl).2

/-! ### Claim C10 -/

/-- C10: the relational `get_conversation` with an explicit conversation
id filters on `conversation_id` alone — for every stored conversation
(unique by id, children sorted per the §3 invariant) and every caller
`user_id`, including one different from the owner, the lookup returns the
stored conversation rather than none. -/
theorem c10_db_get_ignores_user (store : List UserConversation)
    (c : UserConversation) (u : String)
    (hc : c ∈ store)
    (huniq : ∀ b ∈ store, b.conversation_id = c.conversation_id → b = c)
    (hm : List.Sorted msgLe c.messages)
    (hs : List.Sorted summLe c.summaries) :
    dbGetConversation store u (some c.conversation_id) = some c := by
  show dbGetConversationById store c.conversation_id = some c
  unfold dbGetConversationById
  rw [find?_eq_some_of_unique hc (by simp)
    (fun b hb hpb => huniq b hb (by simpa using hpb))]
  simp [dbLoadConv, List.Sorted.insertionSort_eq hm,
    List.Sorted.insertionSort_eq hs]

/-- Witness for C10: user `bob` retrieves `alice`'s conversation by id. -/
theorem c10_db_get_ignores_user_witness :
    dbGetConversation [exConvC10] "bob" (some "c10") = some exConvC10 ∧
    exConvC10.user_id = "alice" :=
  ⟨c10_db_get_ignores_user [exConvC10] exConvC10 "bob" (by decide)
    (by decide) (by decide) (by decide), rfl⟩
